import Mathlib

/-!
Shallow embedding of the TFmini-Plus lidar driver protocol layer
(`TFmini_plus.cpp` / `TFmini_plus.h`): checksum computation and
verification, command-packet construction, transport send/receive
results, UART stream resynchronization, and the timing traces of the
facade operations.

Bytes are modelled as `Nat` values below 256; byte buffers and streams
as `List Nat`; machine-integer truncation is written explicitly with
`% 256` (and `% 65536` for the 16-bit reading fields).  Behaviour that
is undefined in the C source (the `size = 0` underflow of the checksum
loop bound) is modelled as `Option.none`.
-/

/-- Frame-start marker of outgoing command packets.
Modelled from the spec: the identifier `TFMINI_PLUS_FRAME_START` used
by `send_command` is not defined by the header under `src/`; the spec
wire-format table fixes offset 0 of a command packet to `0x5A` (the
header under `src/` also defines `FRAME_START = 0x5A`). -/
def TFMINI_PLUS_FRAME_START : Nat := 0x5A

/-- Header marker byte of autonomous data packets.
Modelled from the spec: the identifier `TFMINI_PLUS_RESPONSE_FRAME_HEADER`
is not defined by the header under `src/`; the spec fixes the data
packet header to two `0x59` bytes. -/
def TFMINI_PLUS_RESPONSE_FRAME_HEADER : Nat := 0x59

/-- Offset of the length field in a packet.
Modelled from the spec: the identifier `TFMINI_PLUS_PACKET_POS_LENGTH`
is not defined by the header under `src/`; the spec wire-format table
puts the length at offset 1. -/
def TFMINI_PLUS_PACKET_POS_LENGTH : Nat := 1

/-- Size of a command packet with no arguments.
Modelled from the spec: the identifier `TFMINI_PLUS_MINIMUM_PACKET_SIZE`
is not defined by the header under `src/`; per the spec encode step the
total size is header(1) + length(1) + command(1) + arguments + checksum(1),
so the minimum (argument-free) size is 4. -/
def TFMINI_PLUS_MINIMUM_PACKET_SIZE : Nat := 4

/-- Total size of the set-address command packet and of its echoed
response.  Modelled from the spec: the identifier is not defined by the
header under `src/`; per the spec wire format a one-byte-argument
packet totals 5 bytes. -/
def TFMINI_PLUS_PACK_LENGTH_SET_I2C_ADDRESS : Nat := 5

/-- Total size of the set-frame-rate command packet and of its echoed
response.  Modelled from the spec: the identifier is not defined by the
header under `src/`; per the spec wire format a two-byte-argument
packet totals 6 bytes (the literal byte listing of spec scenario A also
shows five bytes before the checksum). -/
def TFMINI_PLUS_PACK_LENGTH_SET_FRAME_RATE : Nat := 6

/-- Total size of an autonomous data packet.
Modelled from the spec: the identifier `TFMINI_PLUS_PACK_LENGTH_DATA_RESPONSE`
is not defined by the header under `src/`; the spec lays the data
packet out over offsets 0..8, so 9 bytes. -/
def TFMINI_PLUS_PACK_LENGTH_DATA_RESPONSE : Nat := 9

/-- Embedding of the free function `calculate_checksum(data, size)` of
`TFmini_plus.cpp`.  The C loop runs `for (i = 0; i < size - 1; i++)`
with a `uint8_t` accumulator, so it sums only the first `size - 1`
bytes; for `size = 0` the loop bound underflows (the `int` value `-1`
converts to `SIZE_MAX`) and the loop reads far past the buffer, which
is undefined behaviour, modelled here as `none`. -/
def calculate_checksum (data : List Nat) (size : Nat) : Option Nat :=
  if size = 0 then none
  else some ((data.take (size - 1)).sum % 256)

/-- Embedding of the free function `compare_checksum(data, size)` of
`TFmini_plus.cpp`: it calls `calculate_checksum(data, size - 1)` and
compares the result with `data[size - 1]`.  All call sites pass one of
the fixed buffer sizes (at least 4). -/
def compare_checksum (data : List Nat) (size : Nat) : Option Bool :=
  (calculate_checksum data (size - 1)).map
    (fun c => decide (c = data.getD (size - 1) 0))

namespace TFminiPlus

/-- Embedding of `TFminiPlus::send_uart(input, size)`.  The stream
write result is abstracted as `written`, the number of bytes the
stream reports having written.  The C code stores the comparison
`_stream->write(input, size) == size` (a `bool`, so 0 or 1) into the
`uint8_t` variable `bytes_sent` and then returns `bytes_sent == size`. -/
def send_uart (written size : Nat) : Bool :=
  let bytes_sent : Nat := if written == size then 1 else 0
  bytes_sent == size

/-- Embedding of the packet constructed by
`TFminiPlus::send_command(command, arguments, size)`:
`packet[0] = TFMINI_PLUS_FRAME_START`, `packet[1] = size`,
`packet[2] = command`, then for `size` above the minimum the argument
bytes fill offsets 3 .. size-2, and finally
`packet[size - 1] = calculate_checksum(packet, size - 1)`.
Call sites supply an `arguments` buffer of exactly
`size - TFMINI_PLUS_MINIMUM_PACKET_SIZE` bytes. -/
def send_command_packet (command : Nat) (arguments : List Nat) (size : Nat) : List Nat :=
  let base := [TFMINI_PLUS_FRAME_START, size % 256, command % 256]
      ++ (arguments.take (size - TFMINI_PLUS_MINIMUM_PACKET_SIZE)).map (· % 256)
  base ++ [(calculate_checksum base (size - 1)).getD 0]

/-- Embedding of `TFminiPlus::receive(output, size)`.  The transport
read result (`receive_uart` / `receive_i2c` reporting that exactly
`size` bytes arrived) is abstracted as `delivered`; `output` holds the
bytes read.  On a delivered buffer the C code checks
`size == output[TFMINI_PLUS_PACKET_POS_LENGTH]` and ANDs in
`compare_checksum(output, size)`. -/
def receive (delivered : Bool) (output : List Nat) (size : Nat) : Option Bool :=
  if delivered then
    (compare_checksum output size).map
      (fun c => decide (size = output.getD TFMINI_PLUS_PACKET_POS_LENGTH 0) && c)
  else some false

/-- Embedding of the header-scan loop of
`TFminiPlus::uart_receive_data`: while the stream has bytes and no
packet start was found, read one byte; when it equals
`TFMINI_PLUS_RESPONSE_FRAME_HEADER` immediately read a second byte
(on an empty stream `read()` yields -1, which never matches) and
accept when that second byte is also the marker.  Returns the stream
remaining after the two accepted marker bytes, or `none` when the
stream runs out first. -/
def uart_sync : List Nat → Option (List Nat)
  | [] => none
  | b :: rest =>
    if b == TFMINI_PLUS_RESPONSE_FRAME_HEADER then
      match rest with
      | [] => none
      | b2 :: rest2 =>
        if b2 == TFMINI_PLUS_RESPONSE_FRAME_HEADER then some rest2
        else uart_sync rest2
    else uart_sync rest

/-- Embedding of `TFminiPlus::uart_receive_data(output, size)`.  After
the header scan the C code writes the two marker bytes into
`output[0..1]`, calls `readBytes(&output[2], size - 2)` (which reads
at most the bytes still buffered) and reports
`bytes_read + 2 == size`.  Returns the success flag, the `output`
buffer, and the stream bytes left unconsumed.  When no header is
found the scan has exhausted the stream and `output[0..1]` stay
uninitialized (returned here as an empty buffer). -/
def uart_receive_data (stream : List Nat) (size : Nat) : Bool × List Nat × List Nat :=
  match uart_sync stream with
  | some rest =>
    let body := rest.take (size - 2)
    (2 + body.length == size,
      TFMINI_PLUS_RESPONSE_FRAME_HEADER :: TFMINI_PLUS_RESPONSE_FRAME_HEADER :: body,
      rest.drop (size - 2))
  | none => ((2 : Nat) == size, [], [])

end TFminiPlus

/-- Embedding of `tfminiplus_data_t`: distance, signal strength and
temperature, each a `uint16_t`. -/
structure Reading where
  distance : Nat
  strength : Nat
  temperature : Nat
deriving DecidableEq, Repr

namespace TFminiPlus

/-- Embedding of the UART branch of
`TFminiPlus::read_data_response(data)`: receive
`TFMINI_PLUS_PACK_LENGTH_DATA_RESPONSE` bytes via
`uart_receive_data` and, when it reports success, decode the three
little-endian 16-bit fields from offsets 2..7.  No checksum check
appears on this path. -/
def read_data_response_uart (stream : List Nat) : Option Reading :=
  let r := uart_receive_data stream TFMINI_PLUS_PACK_LENGTH_DATA_RESPONSE
  if r.1 then
    some { distance := (r.2.1.getD 2 0 + r.2.1.getD 3 0 * 256) % 65536,
           strength := (r.2.1.getD 4 0 + r.2.1.getD 5 0 * 256) % 65536,
           temperature := (r.2.1.getD 6 0 + r.2.1.getD 7 0 * 256) % 65536 }
  else none

/-- Embedding of the address stored by `TFminiPlus::begin(address)`
(the I2C overload): `_address = address & 0x7F`. -/
def begin (address : Nat) : Nat :=
  address &&& 0x7F

/-- Embedding of `TFminiPlus::set_i2c_address(address)` acting on the
stored address.  `old` is the `_address` value before the call,
`delivered` and `resp` abstract the transport read of the echoed
response.  The C code sets `result = true` and `_address = address`
exactly when `receive(response, 5)` succeeds and `response[3]`
equals the requested address; the returned pair is the new stored
address and the boolean result. -/
def set_i2c_address (old addr : Nat) (delivered : Bool) (resp : List Nat) : Nat × Bool :=
  if receive delivered resp TFMINI_PLUS_PACK_LENGTH_SET_I2C_ADDRESS = some true
      ∧ resp.getD 3 0 = addr then
    (addr, true)
  else
    (old, false)

/-- Embedding of the command packet transmitted by
`TFminiPlus::set_framerate(framerate)`:
`argument[0] = framerate | 0xFF` and `argument[1] = framerate >> 8`
(both stored into `uint8_t`), passed to `send_command`. -/
def set_framerate_packet (framerate : Nat) : List Nat :=
  send_command_packet 3 [(framerate ||| 0xFF) % 256, (framerate / 256) % 256]
    TFMINI_PLUS_PACK_LENGTH_SET_FRAME_RATE

/-- Embedding of the result of `TFminiPlus::set_framerate(framerate)`:
true exactly when `receive(response, 6)` succeeds and the response
bytes at offsets 3 and 4 equal `argument[0]` and `argument[1]`. -/
def set_framerate (framerate : Nat) (delivered : Bool) (response : List Nat) : Bool :=
  let a0 := (framerate ||| 0xFF) % 256
  let a1 := (framerate / 256) % 256
  decide (receive delivered response TFMINI_PLUS_PACK_LENGTH_SET_FRAME_RATE = some true)
    && (decide (a0 = response.getD 3 0) && decide (a1 = response.getD 4 0))

end TFminiPlus

/-- Transport events emitted by one facade operation, in order: a
command transmission, the fixed 100 ms settle delay of
`do_i2c_wait`, or a response read. -/
inductive Ev
  | send
  | wait
  | read
deriving DecidableEq, Repr

/-- Communication mode stored in `_communications_mode`
(`TFMINI_PLUS_UART` or `TFMINI_PLUS_I2C`). -/
inductive CommMode
  | uart
  | i2c
deriving DecidableEq, Repr

namespace TFminiPlus

/-- Embedding of `TFminiPlus::do_i2c_wait()` as the trace it emits:
`delay(100)` in I2C mode, nothing in UART mode. -/
def do_i2c_wait : CommMode → List Ev
  | .i2c => [.wait]
  | .uart => []

/-- Event trace of `TFminiPlus::set_i2c_address`: send the command,
`do_i2c_wait`, then read the echoed response. -/
def set_i2c_address_trace (m : CommMode) : List Ev :=
  [.send] ++ do_i2c_wait m ++ [.read]

/-- Event trace of `TFminiPlus::get_version`. -/
def get_version_trace (m : CommMode) : List Ev :=
  [.send] ++ do_i2c_wait m ++ [.read]

/-- Event trace of `TFminiPlus::set_framerate`. -/
def set_framerate_trace (m : CommMode) : List Ev :=
  [.send] ++ do_i2c_wait m ++ [.read]

/-- Event trace of `TFminiPlus::set_baudrate`. -/
def set_baudrate_trace (m : CommMode) : List Ev :=
  [.send] ++ do_i2c_wait m ++ [.read]

/-- Event trace of `TFminiPlus::set_output_format`. -/
def set_output_format_trace (m : CommMode) : List Ev :=
  [.send] ++ do_i2c_wait m ++ [.read]

/-- Event trace of `TFminiPlus::read_manual_reading`: send the
trigger-detection command, `do_i2c_wait`, then read the data
response. -/
def read_manual_reading_trace (m : CommMode) : List Ev :=
  [.send] ++ do_i2c_wait m ++ [.read]

/-- Event trace of `TFminiPlus::enable_output`. -/
def enable_output_trace (m : CommMode) : List Ev :=
  [.send] ++ do_i2c_wait m ++ [.read]

/-- Event trace of `TFminiPlus::save_settings`. -/
def save_settings_trace (m : CommMode) : List Ev :=
  [.send] ++ do_i2c_wait m ++ [.read]

/-- Event trace of `TFminiPlus::reset_system`. -/
def reset_system_trace (m : CommMode) : List Ev :=
  [.send] ++ do_i2c_wait m ++ [.read]

/-- Event trace of `TFminiPlus::factory_reset`. -/
def factory_reset_trace (m : CommMode) : List Ev :=
  [.send] ++ do_i2c_wait m ++ [.read]

/-- Event trace of `TFminiPlus::read_data`: in I2C mode it sends the
get-data command and immediately calls `read_data_response` (no
`do_i2c_wait` appears in the function body); in UART mode it only
reads. -/
def read_data_trace : CommMode → List Ev
  | .i2c => [.send, .read]
  | .uart => [.read]

/-- Event trace of `TFminiPlus::set_io_mode`: it only sends the
command and never reads a response. -/
def set_io_mode_trace (_ : CommMode) : List Ev :=
  [.send]

/-- Event trace of `TFminiPlus::set_communication_interface`: send the
switch command, then run `save_settings` (whose read is preceded by
`do_i2c_wait`). -/
def set_communication_interface_trace (m : CommMode) : List Ev :=
  [.send] ++ save_settings_trace m

end TFminiPlus

/-- C1: the claim states that the checksum computation returns the
mod-256 sum of the first `count` bytes and that `count = 0` yields 0
without reading the array.  Evaluated at `bytes = [1, 2, 3]`,
`count = 3`, `calculate_checksum` sums only the first two bytes
(giving 3, not the full sum 6), and at `count = 0` the C loop bound
underflows into an out-of-bounds scan (modelled as `none`) instead of
yielding 0. -/
theorem calculate_checksum_at_failing_input :
    calculate_checksum [1, 2, 3] 3 = some 3 ∧
    calculate_checksum [1, 2, 3] 3 ≠ some ((1 + 2 + 3) % 256) ∧
    calculate_checksum [1, 2, 3] 0 = none := by
  decide

/-- C2: the claim states every packet built by `send_command` carries
the frame-start marker, its total size at offset 1, and a final byte
equal to the mod-256 sum of all `size - 1` preceding bytes.  For the
set-address packet (`command 0x0B`, argument `0x10`, `size 5`) the
code emits `[0x5A, 5, 0x0B, 0x10, 0x6A]`: marker and length are
right, but the checksum byte 0x6A is the sum of only the first three
bytes, while the sum of all four preceding bytes is 0x7A. -/
theorem send_command_packet_checksum_omits_last_byte :
    TFminiPlus.send_command_packet 11 [16] 5 = [90, 5, 11, 16, 106] ∧
    (90 + 5 + 11 + 16) % 256 ≠ 106 := by
  decide

/-- C3 counterexample: the claim states a Serial-mode data read fails
when the checksum byte of the packet is wrong.  The 9-byte packet
`59 59 10 00 20 00 30 00 AA` has an invalid checksum byte (0xAA; the
code checksum comparison itself reports `false`), yet the UART data
read returns the decoded reading. -/
theorem uart_read_ignores_bad_checksum :
    TFminiPlus.read_data_response_uart [0x59, 0x59, 0x10, 0, 0x20, 0, 0x30, 0, 0xAA]
      = some { distance := 16, strength := 32, temperature := 48 } ∧
    compare_checksum [0x59, 0x59, 0x10, 0, 0x20, 0, 0x30, 0, 0xAA] 9 = some false := by
  decide

/-- C3 amended: a Serial-mode data read performs no checksum
verification at all; it succeeds exactly when `uart_receive_data`
reports the expected byte count, regardless of the checksum byte. -/
theorem uart_read_success_independent_of_checksum (stream : List Nat) :
    (TFminiPlus.read_data_response_uart stream).isSome
      = (TFminiPlus.uart_receive_data stream TFMINI_PLUS_PACK_LENGTH_DATA_RESPONSE).1 := by
  unfold TFminiPlus.read_data_response_uart
  cases h : (TFminiPlus.uart_receive_data stream TFMINI_PLUS_PACK_LENGTH_DATA_RESPONSE).1 <;>
    simp [h]

/-- C3 amended witness: instantiation of the amended statement at the
bad-checksum packet of the counterexample input shifted by one junk
byte. -/
theorem uart_read_success_independent_of_checksum_witness :
    (TFminiPlus.read_data_response_uart [0xFF, 0x59, 0x59, 0x10, 0, 0x20, 0, 0x30, 0, 0xAB]).isSome
      = (TFminiPlus.uart_receive_data [0xFF, 0x59, 0x59, 0x10, 0, 0x20, 0, 0x30, 0, 0xAB]
          TFMINI_PLUS_PACK_LENGTH_DATA_RESPONSE).1 :=
  uart_read_success_independent_of_checksum [0xFF, 0x59, 0x59, 0x10, 0, 0x20, 0, 0x30, 0, 0xAB]

/-- C4: the claim states that for any garbage prefix followed by a
valid `0x59 0x59` data packet, the resynchronization returns exactly
that packet and consumes nothing beyond it.  With the one-byte
garbage prefix `[0x59]` before the valid packet
`59 59 00 01 02 03 04 05 C1`, the scan pairs the garbage marker with
the first packet header byte, reports success, returns a window
shifted by one byte, and leaves the final packet byte unconsumed. -/
theorem uart_receive_data_misaligned_after_marker_garbage :
    TFminiPlus.uart_receive_data ([0x59] ++ [0x59, 0x59, 0, 1, 2, 3, 4, 5, 0xC1]) 9
      = (true, [0x59, 0x59, 0x59, 0, 1, 2, 3, 4, 5], [0xC1]) ∧
    [0x59, 0x59, 0x59, 0, 1, 2, 3, 4, 5] ≠ [0x59, 0x59, 0, 1, 2, 3, 4, 5, 0xC1] := by
  decide

/-- C5: a bus-mode response whose embedded length byte at offset 1
differs from the expected size is rejected by `receive`, whatever the
transport result, the checksum, and the other bytes are. -/
theorem receive_rejects_length_mismatch (delivered : Bool) (output : List Nat) (size : Nat)
    (h : output.getD TFMINI_PLUS_PACKET_POS_LENGTH 0 ≠ size) :
    TFminiPlus.receive delivered output size ≠ some true := by
  intro habs
  unfold TFminiPlus.receive at habs
  cases delivered with
  | false => simp at habs
  | true =>
    cases hc : compare_checksum output size with
    | none => simp [hc] at habs
    | some c =>
      simp [hc] at habs
      rw [List.getD_eq_getElem?_getD] at h
      exact h habs.1.symm

/-- C5 witness: the response `5A 06 0B 10 6B` has a checksum byte the
code itself accepts, yet its length byte 6 differs from the expected
size 5 and `receive` rejects it. -/
theorem receive_rejects_length_mismatch_witness :
    List.getD [0x5A, 6, 0x0B, 0x10, 0x6B] TFMINI_PLUS_PACKET_POS_LENGTH 0 ≠ 5 ∧
    compare_checksum [0x5A, 6, 0x0B, 0x10, 0x6B] 5 = some true ∧
    TFminiPlus.receive true [0x5A, 6, 0x0B, 0x10, 0x6B] 5 ≠ some true :=
  ⟨by decide, by decide,
    receive_rejects_length_mismatch true [0x5A, 6, 0x0B, 0x10, 0x6B] 5 (by decide)⟩

/-- C6: the claim states a streaming-mode send reports success if and
only if all `size` bytes were written.  For an 8-byte packet fully
written (the stream write returns 8), `send_uart` still reports
failure, because it stores the boolean comparison result in
`bytes_sent` and then compares that 0-or-1 value with `size`; only
size-1 packets can ever report success. -/
theorem send_uart_reports_failure_on_full_write :
    TFminiPlus.send_uart 8 8 = false ∧ TFminiPlus.send_uart 1 1 = true := by
  decide

/-- C7: the claim states `set_framerate(100)` transmits the low byte
0x64 at offset 3 and succeeds on a device echo whose bytes 3-4 are
`64 00`.  The code computes the low byte as `framerate | 0xFF`, so it
transmits 0xFF at offset 3, and on the otherwise-valid echo frame
`5A 06 03 64 00 C7` (which `receive` accepts) the operation returns
failure. -/
theorem set_framerate_sends_ff_low_byte :
    (TFminiPlus.set_framerate_packet 100).getD 3 0 = 0xFF ∧
    (TFminiPlus.set_framerate_packet 100).getD 3 0 ≠ 0x64 ∧
    TFminiPlus.receive true [0x5A, 6, 3, 0x64, 0, 0xC7] 6 = some true ∧
    TFminiPlus.set_framerate 100 true [0x5A, 6, 3, 0x64, 0, 0xC7] = false := by
  decide

/-- C8 counterexample: the claim states that in bus mode no response
read is ever issued before the fixed settle delay.  The `read_data`
operation in I2C mode sends the get-data command and reads
immediately: its event trace contains no wait at all. -/
theorem read_data_i2c_trace_has_no_wait :
    TFminiPlus.read_data_trace CommMode.i2c = [Ev.send, Ev.read] ∧
    Ev.wait ∉ TFminiPlus.read_data_trace CommMode.i2c := by
  decide

/-- C8 amended: in bus mode every operation that reads a response
issues the fixed settle delay between send and read, except
`read_data`, which reads immediately after the get-data command
(`set_io_mode` never reads); in streaming mode no operation ever
inserts a delay. -/
theorem settle_delay_traces_amended :
    TFminiPlus.set_i2c_address_trace CommMode.i2c = [Ev.send, Ev.wait, Ev.read] ∧
    TFminiPlus.get_version_trace CommMode.i2c = [Ev.send, Ev.wait, Ev.read] ∧
    TFminiPlus.set_framerate_trace CommMode.i2c = [Ev.send, Ev.wait, Ev.read] ∧
    TFminiPlus.set_baudrate_trace CommMode.i2c = [Ev.send, Ev.wait, Ev.read] ∧
    TFminiPlus.set_output_format_trace CommMode.i2c = [Ev.send, Ev.wait, Ev.read] ∧
    TFminiPlus.read_manual_reading_trace CommMode.i2c = [Ev.send, Ev.wait, Ev.read] ∧
    TFminiPlus.enable_output_trace CommMode.i2c = [Ev.send, Ev.wait, Ev.read] ∧
    TFminiPlus.save_settings_trace CommMode.i2c = [Ev.send, Ev.wait, Ev.read] ∧
    TFminiPlus.reset_system_trace CommMode.i2c = [Ev.send, Ev.wait, Ev.read] ∧
    TFminiPlus.factory_reset_trace CommMode.i2c = [Ev.send, Ev.wait, Ev.read] ∧
    TFminiPlus.set_communication_interface_trace CommMode.i2c
      = [Ev.send, Ev.send, Ev.wait, Ev.read] ∧
    TFminiPlus.read_data_trace CommMode.i2c = [Ev.send, Ev.read] ∧
    TFminiPlus.set_io_mode_trace CommMode.i2c = [Ev.send] ∧
    Ev.wait ∉ TFminiPlus.set_i2c_address_trace CommMode.uart ∧
    Ev.wait ∉ TFminiPlus.get_version_trace CommMode.uart ∧
    Ev.wait ∉ TFminiPlus.set_framerate_trace CommMode.uart ∧
    Ev.wait ∉ TFminiPlus.set_baudrate_trace CommMode.uart ∧
    Ev.wait ∉ TFminiPlus.set_output_format_trace CommMode.uart ∧
    Ev.wait ∉ TFminiPlus.read_manual_reading_trace CommMode.uart ∧
    Ev.wait ∉ TFminiPlus.enable_output_trace CommMode.uart ∧
    Ev.wait ∉ TFminiPlus.save_settings_trace CommMode.uart ∧
    Ev.wait ∉ TFminiPlus.reset_system_trace CommMode.uart ∧
    Ev.wait ∉ TFminiPlus.factory_reset_trace CommMode.uart ∧
    Ev.wait ∉ TFminiPlus.set_communication_interface_trace CommMode.uart ∧
    Ev.wait ∉ TFminiPlus.read_data_trace CommMode.uart ∧
    Ev.wait ∉ TFminiPlus.set_io_mode_trace CommMode.uart := by
  decide

/-- C9: `set_i2c_address` stores the requested address and returns
true exactly when the response is accepted by `receive` and its byte
at offset 3 echoes the requested address; in every other case it
returns false and leaves the stored address unchanged. -/
theorem set_i2c_address_updates_iff_echoed (old addr : Nat) (delivered : Bool)
    (resp : List Nat) :
    ((TFminiPlus.receive delivered resp TFMINI_PLUS_PACK_LENGTH_SET_I2C_ADDRESS = some true
        ∧ resp.getD 3 0 = addr)
      → TFminiPlus.set_i2c_address old addr delivered resp = (addr, true)) ∧
    (¬(TFminiPlus.receive delivered resp TFMINI_PLUS_PACK_LENGTH_SET_I2C_ADDRESS = some true
        ∧ resp.getD 3 0 = addr)
      → TFminiPlus.set_i2c_address old addr delivered resp = (old, false)) := by
  constructor
  · intro h
    unfold TFminiPlus.set_i2c_address
    rw [if_pos h]
  · intro h
    unfold TFminiPlus.set_i2c_address
    rw [if_neg h]

/-- C9 witness: on the valid echoed response `5A 05 0B 2A 6A` the
address 0x2A is stored with result true, and on a failed transport
read the stored address 0x10 is kept with result false. -/
theorem set_i2c_address_updates_iff_echoed_witness :
    TFminiPlus.set_i2c_address 0x10 0x2A true [0x5A, 5, 0x0B, 0x2A, 0x6A] = (0x2A, true) ∧
    TFminiPlus.set_i2c_address 0x10 0x2A false [] = (0x10, false) :=
  ⟨(set_i2c_address_updates_iff_echoed 0x10 0x2A true [0x5A, 5, 0x0B, 0x2A, 0x6A]).1
      ⟨by decide, by decide⟩,
    (set_i2c_address_updates_iff_echoed 0x10 0x2A false []).2 (by decide)⟩

set_option maxRecDepth 8192 in
/-- C10: `begin(address)` stores `address & 0x7F`, i.e. the address
modulo 128 for every 8-bit argument, which is always below 0x80; a
subsequent successful `set_i2c_address` stores the echoed address
itself, with no such masking. -/
theorem begin_masks_to_seven_bits :
    (∀ a, a < 256 → TFminiPlus.begin a = a % 128) ∧
    (∀ a, TFminiPlus.begin a < 128) ∧
    (∀ (old addr : Nat) (delivered : Bool) (resp : List Nat),
      TFminiPlus.receive delivered resp TFMINI_PLUS_PACK_LENGTH_SET_I2C_ADDRESS = some true
        → resp.getD 3 0 = addr
        → (TFminiPlus.set_i2c_address old addr delivered resp).1 = addr) := by
  refine ⟨by decide, ?_, ?_⟩
  · intro a
    unfold TFminiPlus.begin
    exact Nat.lt_succ_of_le Nat.and_le_right
  · intro old addr delivered resp h1 h2
    unfold TFminiPlus.set_i2c_address
    rw [if_pos ⟨h1, h2⟩]

/-- C10 witness: `begin(0x90)` stores 0x10 (masked below 0x80), while
`set_i2c_address` acknowledged with the echo `5A 05 0B 90 6A` stores
the unmasked address 0x90. -/
theorem begin_masks_to_seven_bits_witness :
    TFminiPlus.begin 0x90 = 0x90 % 128 ∧
    TFminiPlus.begin 0x90 < 128 ∧
    (TFminiPlus.set_i2c_address 0x10 0x90 true [0x5A, 5, 0x0B, 0x90, 0x6A]).1 = 0x90 :=
  ⟨begin_masks_to_seven_bits.1 0x90 (by decide),
    begin_masks_to_seven_bits.2.1 0x90,
    begin_masks_to_seven_bits.2.2 0x10 0x90 true [0x5A, 5, 0x0B, 0x90, 0x6A]
      (by decide) (by decide)⟩
